import Mathlib

/-!
Verification of the NordLayer Telegram bot (`src/telegram-bot/main.py`)
against its natural-language specification.

The file shallowly embeds the dispatch and handler logic of `main.py`:
Python strings become `String`, optional attributes become `Option`,
the per-user session store and the subscription store become association
lists keyed by the Telegram user id.  Handlers are pure functions from
the relevant state to a reply value (an inductive describing which reply
the source sends) together with the updated state.

The modules `session_manager`, `order_handlers` and `notification_service`
are imported by `main.py` but their sources are not part of the repository;
where the behaviour of those modules decides a claim, the corresponding
definition is modelled from the specification text and carries a doc
comment starting with `Modelled from the spec:`.
-/

namespace NordLayer

/-- The `OrderStep` enum imported from `session_manager` in `main.py`;
its members are the ones named by the spec's data model (§3). -/
inductive OrderStep
  | SERVICE_SELECTION
  | CONTACT_INFO
  | FILE_UPLOAD
  | SPECIFICATIONS
  | DELIVERY
  | CONFIRMATION
  | SUBMITTED
deriving DecidableEq, Repr

/-- A reference to an uploaded model file (spec §3: name, size, remote id). -/
structure FileRef where
  name : String
  size : Nat
  remote_id : String
deriving DecidableEq, Repr

/-- The per-user order session (spec §3).  Python `None` becomes `none`;
the tri-state of `customer_phone` (unset / explicitly skipped / present)
is `none` / `some ""`-or-other-sentinel / `some s` exactly as in the
source, which distinguishes only `is None` from the rest. -/
structure OrderSession where
  step : OrderStep
  service_id : Option Nat := none
  customer_name : Option String := none
  customer_email : Option String := none
  customer_phone : Option String := none
  uploaded_files : List FileRef := []
  material : Option String := none
  quality : Option String := none
  infill : Option String := none
  delivery_needed : Bool := false
  delivery_address : Option String := none
deriving DecidableEq, Repr

/-- Modelled from the spec: the `session_manager` module (`SessionManager`)
is imported by `main.py` but its source is not under the repository tree;
§4.2 specifies a keyed map with `get`, `update`, `clear` (returning
true iff a session existed).  Sessions are stored as an association list
keyed by user id. -/
structure SessionManager where
  sessions : List (Nat × OrderSession)
deriving DecidableEq, Repr

def SessionManager.get_session (m : SessionManager) (uid : Nat) : Option OrderSession :=
  (m.sessions.find? (fun p => p.1 == uid)).map (fun p => p.2)

/-- Modelled from the spec (§4.2): `clear(user_id) -> bool` removes the
user's session and returns true iff one existed. -/
def SessionManager.clear_session (m : SessionManager) (uid : Nat) : Bool × SessionManager :=
  ((m.get_session uid).isSome, ⟨m.sessions.filter (fun p => p.1 != uid)⟩)

/-- Modelled from the spec (§4.2): per-user read-modify-write, replacing
the stored session for `uid` where present. -/
def SessionManager.update_session (m : SessionManager) (uid : Nat) (s : OrderSession) : SessionManager :=
  ⟨m.sessions.map (fun p => if p.1 == uid then (uid, s) else p)⟩

/-- The two replies `cancel_command` can send (main.py lines 201-206):
data-cleared confirmation, or "nothing to cancel". -/
inductive CancelReply
  | cancelled
  | nothing_to_cancel
deriving DecidableEq, Repr

/-- `TelegramBot.cancel_command` (main.py lines 193-206): clears the
user's session via `clear_session` and reports cancellation iff the
store reported that a session existed. -/
def cancel_command (m : SessionManager) (uid : Nat) : CancelReply × SessionManager :=
  let r := m.clear_session uid
  (if r.1 then CancelReply.cancelled else CancelReply.nothing_to_cancel, r.2)

/-- Outcomes of the final confirmation step. -/
inductive ConfirmOutcome
  | order_submitted
  | submission_failed
  | no_active_order
deriving DecidableEq, Repr

/-- Modelled from the spec: `order_handlers.confirm_order` is invoked from
`main.py` (line 272, callback `order_confirm`) but the `order_handlers`
module is not in the repository tree.  Per spec §4.1: the final Confirm
submits the order through the API adapter; on success the session
transitions to SUBMITTED and is then cleared; on failure the session
remains at CONFIRMATION unchanged and a submission-failure outcome is
returned so the user may retry.  `submitOk` is the adapter's result. -/
def confirm_order (m : SessionManager) (uid : Nat) (submitOk : Bool) :
    ConfirmOutcome × SessionManager :=
  match m.get_session uid with
  | none => (ConfirmOutcome.no_active_order, m)
  | some s =>
    if s.step = OrderStep.CONFIRMATION then
      if submitOk then
        (ConfirmOutcome.order_submitted,
          ((m.update_session uid { s with step := OrderStep.SUBMITTED }).clear_session uid).2)
      else
        (ConfirmOutcome.submission_failed, m)
    else
      (ConfirmOutcome.no_active_order, m)

/-! ### Python string helpers -/

/-- Python `str.lower()` restricted to its ASCII action, which is all the
source relies on (file extensions). -/
def pyLower (s : String) : String := ⟨s.toList.map Char.toLower⟩

/-- Python `str.endswith(suffix)`. -/
def pyEndsWith (s suff : String) : Bool := suff.toList.isSuffixOf s.toList

/-- The ASCII whitespace stripped by Python `str.strip()`. -/
def isSpaceChar (c : Char) : Bool :=
  c == ' ' || c == '\t' || c == '\n' || c == '\r' || c == '\x0b' || c == '\x0c'

/-- Python `str.strip()` on a character list. -/
def pyStrip (s : List Char) : List Char :=
  ((s.dropWhile isSpaceChar).reverse.dropWhile isSpaceChar).reverse

/-- Character class `[a-zA-Z0-9._%+-]` of the email regex's local part. -/
def isLocalChar (c : Char) : Bool :=
  c.isAlpha || c.isDigit || c == '.' || c == '_' || c == '%' || c == '+' || c == '-'

/-- Character class `[a-zA-Z0-9.-]` of the email regex's domain part. -/
def isDomainChar (c : Char) : Bool :=
  c.isAlpha || c.isDigit || c == '.' || c == '-'

/-- Matcher for the domain half `[a-zA-Z0-9.-]+\.[a-zA-Z]{2,}$` of the
email regex: split at the last `'.'` (the TLD is purely alphabetic, so
the dot of any match is the last one); before it a non-empty run over the
domain class, after it at least two letters. -/
def matchDomainChars (d : List Char) : Bool :=
  let r := d.reverse.span (fun c => c != '.')
  match r.2 with
  | [] => false
  | _ :: subRev =>
    !subRev.isEmpty && subRev.all isDomainChar
      && decide (2 ≤ r.1.length) && r.1.all Char.isAlpha

/-- Matcher for `^[a-zA-Z0-9._%+-]+@[a-zA-Z0-9.-]+\.[a-zA-Z]{2,}$`:
neither character class contains `'@'`, so a match splits the string at
its first `'@'` into a non-empty local part and a matching domain. -/
def matchEmailChars (s : List Char) : Bool :=
  let r := s.span (fun c => c != '@')
  match r.2 with
  | [] => false
  | _ :: domain => !r.1.isEmpty && r.1.all isLocalChar && matchDomainChars domain

/-- `TelegramBot._validate_email` (main.py lines 1065-1072): a falsy
(empty) input is rejected outright, otherwise the input is stripped of
surrounding whitespace and matched against the email pattern. -/
def validate_email (email : String) : Bool :=
  if email.toList.isEmpty then false
  else matchEmailChars (pyStrip email.toList)

/-! ### Subscriptions -/

/-- The per-user notification subscription record (spec §3). -/
structure Subscription where
  user_id : Nat
  email : String
  notification_types : List String
  is_active : Bool
deriving DecidableEq, Repr

/-- Modelled from the spec: the `notification_service` module holding the
`subscription_manager` is imported by `main.py` but its source is not in
the repository tree; §3 and §4.3 specify one record per user id, created
on first subscribe, soft-deleted on unsubscribe, reactivated (not
duplicated) on resubscribe. -/
structure SubscriptionManager where
  subs : List (Nat × Subscription)
deriving DecidableEq, Repr

def SubscriptionManager.get_subscription (m : SubscriptionManager) (uid : Nat) :
    Option Subscription :=
  (m.subs.find? (fun p => p.1 == uid)).map (fun p => p.2)

/-- Modelled from the spec (§4.3): `subscribe(user_id, email, types)`;
subscribing an already-present user updates email/types in place and
reactivates the record rather than erroring or duplicating it. -/
def SubscriptionManager.subscribe_user (m : SubscriptionManager) (uid : Nat)
    (email : String) (types : List String) : Bool × SubscriptionManager :=
  match m.get_subscription uid with
  | some _ =>
    (true, ⟨m.subs.map (fun p =>
      if p.1 == uid then (uid, ⟨uid, email, types, true⟩) else p)⟩)
  | none => (true, ⟨m.subs ++ [(uid, ⟨uid, email, types, true⟩)]⟩)

/-- Modelled from the spec (§4.3): `unsubscribe(user_id) -> bool`, false if
not currently active; soft-delete by toggling `is_active` off. -/
def SubscriptionManager.unsubscribe_user (m : SubscriptionManager) (uid : Nat) :
    Bool × SubscriptionManager :=
  match m.get_subscription uid with
  | some s =>
    if s.is_active then
      (true, ⟨m.subs.map (fun p =>
        if p.1 == uid then (p.1, { p.2 with is_active := false }) else p)⟩)
    else (false, m)
  | none => (false, m)

/-- Number of stored subscription records for one user id. -/
def SubscriptionManager.countFor (m : SubscriptionManager) (uid : Nat) : Nat :=
  (m.subs.filter (fun p => p.1 == uid)).length

/-! ### Order tracking -/

/-- One order as returned by `GET /api/v1/orders?email=`; a missing
`created_at` is read as `''` by the sort key in `show_orders_list`. -/
structure TrackedOrder where
  id : Nat
  status : String
  service_name : String
  created_at : String
deriving DecidableEq, Repr

/-- Comparison used by `sorted(orders, key=..., reverse=True)` in
`show_orders_list`: `a` may precede `b` iff `a`'s creation date is no
older than `b`'s (descending, stable on ties exactly like Python's
stable sort). -/
def ordersDescLe (a b : TrackedOrder) : Bool :=
  decide (b.created_at ≤ a.created_at)

/-- What `TelegramBot.show_orders_list` (main.py lines 881-974) renders:
the orders that get a detail button (the loop over `sorted_orders[:10]`),
and the count in the "… and N more" summary line shown when more than
ten orders exist. -/
structure OrdersListView where
  shown : List TrackedOrder
  extra_count : Option Nat
deriving DecidableEq, Repr

/-- `TelegramBot.show_orders_list` (main.py lines 881-974): sort by
`created_at` descending, render detail buttons for at most the first 10,
and summarise the rest only by count. -/
def show_orders_list (orders : List TrackedOrder) : OrdersListView :=
  let sorted_orders := orders.mergeSort ordersDescLe
  ⟨sorted_orders.take 10,
    if 10 < orders.length then some (orders.length - 10) else none⟩

/-! ### Per-chat transient state and email-input handlers -/

/-- The slice of `context.user_data` the text dispatcher consults. -/
structure UserData where
  tracking_state : Option String := none
  subscription_state : Option String := none
deriving DecidableEq, Repr

/-- Replies of `TelegramBot.handle_tracking_email` (main.py lines 815-879). -/
inductive TrackingReply
  | invalid_email_reprompt
  | api_error
  | no_orders_found (email : String)
  | orders_list (v : OrdersListView)
deriving DecidableEq, Repr

/-- `TelegramBot.handle_tracking_email` (main.py lines 815-879): an input
failing `_validate_email` re-prompts and returns early (state untouched);
otherwise the API is queried (`apiOrders = none` models `APIClientError`)
and `tracking_state` is popped on every non-early path. -/
def handle_tracking_email (ud : UserData) (email : String)
    (apiOrders : Option (List TrackedOrder)) : TrackingReply × UserData :=
  if validate_email email = false then
    (TrackingReply.invalid_email_reprompt, ud)
  else
    match apiOrders with
    | none => (TrackingReply.api_error, { ud with tracking_state := none })
    | some [] => (TrackingReply.no_orders_found email, { ud with tracking_state := none })
    | some orders =>
      (TrackingReply.orders_list (show_orders_list orders), { ud with tracking_state := none })

/-- Replies of `TelegramBot.handle_subscription_email` (main.py lines 746-790). -/
inductive SubscriptionReply
  | invalid_email_reprompt
  | subscription_activated (email : String)
  | subscription_error
  | service_unavailable
deriving DecidableEq, Repr

/-- `TelegramBot.handle_subscription_email` (main.py lines 746-790): an
input failing `_validate_email` re-prompts and returns early (state and
subscription store untouched); otherwise `subscribe_user` is called with
the two notification types and `subscription_state` is popped. -/
def handle_subscription_email (ud : UserData) (sm : SubscriptionManager)
    (notifReady : Bool) (uid : Nat) (email : String) :
    SubscriptionReply × UserData × SubscriptionManager :=
  if validate_email email = false then
    (SubscriptionReply.invalid_email_reprompt, ud, sm)
  else if notifReady then
    let r := sm.subscribe_user uid email ["status_change", "order_ready"]
    ((if r.1 then SubscriptionReply.subscription_activated email
      else SubscriptionReply.subscription_error),
      { ud with subscription_state := none }, r.2)
  else
    (SubscriptionReply.service_unavailable, { ud with subscription_state := none }, sm)

/-! ### Text-message dispatch -/

/-- Which handler consumes an inbound text message
(`TelegramBot.handle_text_message`, main.py lines 344-398). -/
inductive TextRoute
  | tracking_email
  | subscription_email
  | contact_name
  | contact_email
  | contact_phone
  | contact_done
  | delivery_address
  | step_hint (s : OrderStep)
  | no_session
deriving DecidableEq, Repr

/-- Python truthiness test `not x` for an optional string attribute:
true on `None` and the empty string. -/
def pyFalsyStr (o : Option String) : Bool :=
  match o with
  | none => true
  | some s => s == ""

/-- The session-step branch of `handle_text_message` (main.py lines
368-393): in CONTACT_INFO route to name / email / phone by the first
falsy field, with the phone targeted only while `customer_phone is None`;
in DELIVERY with `delivery_needed` collect the address; otherwise emit
the per-step button hint. -/
def routeSessionText (s : OrderSession) : TextRoute :=
  if s.step = OrderStep.CONTACT_INFO then
    if pyFalsyStr s.customer_name then TextRoute.contact_name
    else if pyFalsyStr s.customer_email then TextRoute.contact_email
    else if s.customer_phone = none then TextRoute.contact_phone
    else TextRoute.contact_done
  else if s.step = OrderStep.DELIVERY ∧ s.delivery_needed then
    TextRoute.delivery_address
  else
    TextRoute.step_hint s.step

/-- Modelled from the spec: the bodies of `order_handlers.handle_contact_name`,
`handle_contact_email`, `handle_contact_phone` and
`handle_delivery_address` are not in the repository tree; per §4.1 they
validate the text and set the targeted field of the user's own session.
Only the fact that they may mutate that session matters to the claims. -/
def orderFlowTextEffect (store : SessionManager) (uid : Nat) (s : OrderSession)
    (text : String) : SessionManager :=
  match routeSessionText s with
  | TextRoute.contact_name => store.update_session uid { s with customer_name := some text }
  | TextRoute.contact_email =>
    if validate_email text then store.update_session uid { s with customer_email := some text }
    else store
  | TextRoute.contact_phone => store.update_session uid { s with customer_phone := some text }
  | TextRoute.delivery_address =>
    store.update_session uid { s with delivery_address := some text }
  | _ => store

/-- `TelegramBot.handle_text_message` (main.py lines 344-398): tracking
mode wins, then subscription mode, and only then the active order
session; without a session (or with the order handlers unavailable) the
greeting branch fires.  Returns the route taken together with the
updated per-chat state, session store and subscription store. -/
def handle_text_message (ud : UserData) (store : SessionManager)
    (sm : SubscriptionManager) (handlersReady notifReady : Bool) (uid : Nat)
    (text : String) (apiOrders : Option (List TrackedOrder)) :
    TextRoute × UserData × SessionManager × SubscriptionManager :=
  if ud.tracking_state = some "waiting_for_email" then
    (TextRoute.tracking_email, (handle_tracking_email ud text apiOrders).2, store, sm)
  else if ud.subscription_state = some "waiting_for_email" then
    let r := handle_subscription_email ud sm notifReady uid text
    (TextRoute.subscription_email, r.2.1, store, r.2.2)
  else
    match store.get_session uid with
    | some s =>
      if handlersReady then
        (routeSessionText s, ud, orderFlowTextEffect store uid s text, sm)
      else
        (TextRoute.no_session, ud, store, sm)
    | none => (TextRoute.no_session, ud, store, sm)

/-! ### Document dispatch -/

/-- An inbound Telegram document: name and size are optional exactly as
on the Telegram object. -/
structure TelegramDocument where
  file_name : Option String
  file_size : Option Nat
deriving DecidableEq, Repr

/-- Replies of `TelegramBot.handle_file` (main.py lines 400-440). -/
inductive FileOutcome
  | order_flow
  | file_not_found
  | invalid_format (name : String)
  | file_too_large (name : String)
  | standalone_ack (name : String)
deriving DecidableEq, Repr

/-- The check `filename_lower.endswith(('.stl', '.obj', '.3mf'))` on the
lower-cased file name (main.py lines 419-422). -/
def supportedFormatName (name : String) : Bool :=
  pyEndsWith (pyLower name) ".stl" || pyEndsWith (pyLower name) ".obj"
    || pyEndsWith (pyLower name) ".3mf"

/-- The standalone branch of `handle_file` (main.py lines 414-440): a
missing document or falsy name is a not-found error; a lower-cased name
not ending in `.stl`/`.obj`/`.3mf` is an unsupported format; a known
size above `50 * 1024 * 1024` bytes is too large; otherwise the file is
acknowledged with a pointer to `/order`. -/
def standalone_file_reply (doc : Option TelegramDocument) : FileOutcome :=
  match doc with
  | none => FileOutcome.file_not_found
  | some f =>
    match f.file_name with
    | none => FileOutcome.file_not_found
    | some name =>
      if name = "" then FileOutcome.file_not_found
      else
        if !supportedFormatName name then
          FileOutcome.invalid_format name
        else if f.file_size.getD 0 > 50 * 1024 * 1024 then
          FileOutcome.file_too_large name
        else
          FileOutcome.standalone_ack name

/-- Modelled from the spec: `order_handlers.handle_file_upload` is not in
the repository tree; per §3/§4.1 it appends the file reference to the
session's `uploaded_files`.  Only relevant to the order-flow branch. -/
def orderFlowFileEffect (store : SessionManager) (uid : Nat) (s : OrderSession)
    (doc : Option TelegramDocument) : SessionManager :=
  match doc with
  | some f =>
    match f.file_name with
    | some name =>
      store.update_session uid
        { s with uploaded_files := s.uploaded_files ++ [⟨name, f.file_size.getD 0, ""⟩] }
    | none => store
  | none => store

/-- `TelegramBot.handle_file` (main.py lines 400-440): the document is
handed to the order flow exactly when an active session sits at
FILE_UPLOAD and the order handlers are available; every other case runs
the standalone reply without touching the session store. -/
def handle_file (store : SessionManager) (uid : Nat) (handlersReady : Bool)
    (doc : Option TelegramDocument) : FileOutcome × SessionManager :=
  match store.get_session uid with
  | some s =>
    if s.step = OrderStep.FILE_UPLOAD ∧ handlersReady then
      (FileOutcome.order_flow, orderFlowFileEffect store uid s doc)
    else
      (standalone_file_reply doc, store)
  | none => (standalone_file_reply doc, store)

/-! ### Services catalog -/

/-- One service from `GET /api/v1/services`; `id` is optional because the
source guards `service.get('id')`. -/
structure Service where
  id : Option Nat
  name : String := ""
  description : String := ""
deriving DecidableEq, Repr

/-- What one page of `TelegramBot.show_services_catalog` (main.py lines
442-533) renders: the slice of services listed with selection buttons,
the presence of the previous/next pagination buttons, and the page
count. -/
structure CatalogPage where
  page_services : List Service
  has_prev : Bool
  has_next : Bool
  total_pages : Nat
deriving DecidableEq, Repr

/-- `TelegramBot.show_services_catalog` (main.py lines 442-533) for a
fetched service list: `none` models the empty-catalog early return;
otherwise 5 services per page, `services[start:end]` with
`start = page*5` and `end = min(start+5, total)`, a back button iff
`page > 0` and a forward button iff `page < total_pages - 1`. -/
def show_services_catalog (services : List Service) (page : Nat) : Option CatalogPage :=
  if services.isEmpty then none
  else
    let services_per_page := 5
    let total_services := services.length
    let total_pages := (total_services + services_per_page - 1) / services_per_page
    let start_idx := page * services_per_page
    let end_idx := min (start_idx + services_per_page) total_services
    let page_services := (services.drop start_idx).take (end_idx - start_idx)
    some ⟨page_services, decide (page > 0), decide (page < total_pages - 1), total_pages⟩

/-- Replies of `TelegramBot.handle_service_selection` (main.py lines
541-606): the detail card for a found service, or the fixed
"service not found, try another from the catalog" text (lines 554-559)
— a plain reply with no keyboard and no catalog. -/
inductive ServiceSelectionReply
  | service_details (service_id : Nat)
  | service_not_found
  | catalog_page (c : CatalogPage)
deriving DecidableEq, Repr

/-- `TelegramBot.handle_service_selection` (main.py lines 541-606):
re-fetches the active services, looks the id up with
`next((s for s in services if s.get('id') == service_id), None)`, and on
a miss replies the not-found text and returns; the session store is
never consulted or mutated on either path. -/
def handle_service_selection (store : SessionManager) (services : List Service)
    (service_id : Nat) : ServiceSelectionReply × SessionManager :=
  match services.find? (fun s => s.id == some service_id) with
  | some _ => (ServiceSelectionReply.service_details service_id, store)
  | none => (ServiceSelectionReply.service_not_found, store)

/-- Whether a reply of the service-selection flow shows the services
catalog (the rendering `show_services_catalog` produces). -/
def displays_catalog (r : ServiceSelectionReply) : Bool :=
  match r with
  | ServiceSelectionReply.catalog_page _ => true
  | _ => false

/-! ### Concrete data for the witness theorems -/

/-- A one-user store whose session sits at CONFIRMATION with all fields
collected. -/
def confirmDemoSession : OrderSession :=
  { step := OrderStep.CONFIRMATION
    service_id := some 2
    customer_name := some "Alice"
    customer_email := some "alice@example.com"
    customer_phone := some "+79000000000"
    uploaded_files := [⟨"part.stl", 2048, "f1"⟩]
    material := some "PLA"
    quality := some "standard"
    infill := some "20"
    delivery_needed := false
    delivery_address := none }

def confirmDemoStore : SessionManager := ⟨[(7, confirmDemoSession)]⟩

/-- A store with a CONTACT_INFO session (name collected, email pending). -/
def contactDemoSession : OrderSession :=
  { step := OrderStep.CONTACT_INFO
    service_id := some 1
    customer_name := some "Bob" }

def contactDemoStore : SessionManager := ⟨[(3, contactDemoSession)]⟩

/-- Six services with ids 1..6, for exercising the catalog pagination. -/
def demoServices : List Service :=
  [⟨some 1, "S1", ""⟩, ⟨some 2, "S2", ""⟩, ⟨some 3, "S3", ""⟩,
    ⟨some 4, "S4", ""⟩, ⟨some 5, "S5", ""⟩, ⟨some 6, "S6", ""⟩]

/-- Eleven orders with out-of-order creation dates, for exercising the
tracking list rendering. -/
def demoOrders : List TrackedOrder :=
  [⟨1, "new", "A", "2024-01-05"⟩, ⟨2, "ready", "B", "2024-03-01"⟩,
    ⟨3, "new", "C", "2024-02-11"⟩, ⟨4, "completed", "D", "2023-12-31"⟩,
    ⟨5, "new", "E", "2024-02-28"⟩, ⟨6, "cancelled", "F", "2024-01-17"⟩,
    ⟨7, "in_progress", "G", "2024-03-02"⟩, ⟨8, "new", "H", "2024-01-05"⟩,
    ⟨9, "confirmed", "I", "2024-02-01"⟩, ⟨10, "new", "J", "2023-11-20"⟩,
    ⟨11, "ready", "K", "2024-02-14"⟩]

/-! ### Association-list helper lemmas -/

theorem find?_filter_key_ne (l : List (Nat × OrderSession)) (uid : Nat) :
    (l.filter (fun p => p.1 != uid)).find? (fun p => p.1 == uid) = none := by
  rw [List.find?_eq_none]
  intro x hx
  have hmem := List.of_mem_filter hx
  simp only [bne_iff_ne, ne_eq, decide_eq_true_eq] at hmem
  simp only [beq_iff_eq]
  exact hmem

/-- After `clear_session`, `get_session` returns `none` for that user. -/
theorem get_session_clear (m : SessionManager) (uid : Nat) :
    (m.clear_session uid).2.get_session uid = none := by
  simp only [SessionManager.clear_session, SessionManager.get_session,
    find?_filter_key_ne, Option.map_none']

/-- Updating an association list pointwise at one key rewrites exactly the
entry `find?` locates for that key, provided the update preserves the key. -/
theorem assoc_find?_map_update {α : Type} (l : List (Nat × α)) (uid : Nat)
    (g : Nat × α → Nat × α) (hg : ∀ p : Nat × α, p.1 = uid → (g p).1 = uid) :
    (l.map (fun p => if p.1 == uid then g p else p)).find? (fun p => p.1 == uid)
      = (l.find? (fun p => p.1 == uid)).map g := by
  induction l with
  | nil => simp
  | cons p l ih =>
    by_cases h : p.1 = uid
    · have hgp : (g p).1 = uid := hg p h
      simp [List.find?_cons, h, hgp]
    · simp only [List.map_cons]
      rw [if_neg (by simpa using h)]
      rw [List.find?_cons_of_neg _ (by simpa using h),
        List.find?_cons_of_neg _ (by simpa using h)]
      exact ih

/-- A key-preserving pointwise update leaves the number of entries stored
under each key unchanged. -/
theorem assoc_filter_length_map_update {α : Type} (l : List (Nat × α)) (uid : Nat)
    (g : Nat × α → Nat × α) (hg : ∀ p : Nat × α, p.1 = uid → (g p).1 = uid) :
    ((l.map (fun p => if p.1 == uid then g p else p)).filter
        (fun p => p.1 == uid)).length
      = (l.filter (fun p => p.1 == uid)).length := by
  induction l with
  | nil => simp
  | cons p l ih =>
    simp only [List.map_cons]
    by_cases h : p.1 = uid
    · have hgp : (g p).1 = uid := hg p h
      rw [if_pos (by simpa using h)]
      rw [List.filter_cons_of_pos (by simpa using hgp),
        List.filter_cons_of_pos (by simpa using h)]
      simpa using ih
    · rw [if_neg (by simpa using h)]
      rw [List.filter_cons_of_neg (by simpa using h),
        List.filter_cons_of_neg (by simpa using h)]
      exact ih

theorem get_subscription_exists_entry (m : SubscriptionManager) (uid : Nat)
    (old : Subscription) (hget : m.get_subscription uid = some old) :
    ∃ p0, m.subs.find? (fun p => p.1 == uid) = some p0 ∧ p0.1 = uid ∧ p0.2 = old := by
  cases hfind : m.subs.find? (fun p => p.1 == uid) with
  | none => simp [SubscriptionManager.get_subscription, hfind] at hget
  | some p0 =>
    refine ⟨p0, rfl, ?_, ?_⟩
    · have := List.find?_some hfind
      simpa using this
    · simpa [SubscriptionManager.get_subscription, hfind] using hget

/-! ### Claim theorems -/

/-- C4: For every user and every session store, the cancel command clears
the user's session (a subsequent lookup returns none) and the user is told
a cancellation happened if and only if a session existed at the time of
the command. -/
theorem cancel_clears_session_and_reports_iff_existed
    (m : SessionManager) (uid : Nat) :
    (cancel_command m uid).2.get_session uid = none ∧
    ((cancel_command m uid).1 = CancelReply.cancelled ↔
      (m.get_session uid).isSome = true) := by
  constructor
  · show (m.clear_session uid).2.get_session uid = none
    exact get_session_clear m uid
  · simp only [cancel_command, SessionManager.clear_session]
    by_cases h : (m.get_session uid).isSome = true
    · simp [h]
    · simp [h]

/-- C5: Subscribing a user who already has an active subscription with a
different email updates the stored email and notification types in place
(the operation succeeds, the single record is replaced, no duplicate is
created); and unsubscribing then resubscribing reactivates the stored
record with `is_active = true`, again without duplication. -/
theorem subscribe_updates_in_place_and_resubscribe_reactivates
    (m : SubscriptionManager) (uid : Nat) (old : Subscription)
    (e2 : String) (ts : List String)
    (hget : m.get_subscription uid = some old)
    (hactive : old.is_active = true)
    (hdiff : old.email ≠ e2)
    (hcount : m.countFor uid = 1) :
    (m.subscribe_user uid e2 ts).1 = true ∧
    (m.subscribe_user uid e2 ts).2.get_subscription uid = some ⟨uid, e2, ts, true⟩ ∧
    (m.subscribe_user uid e2 ts).2.countFor uid = 1 ∧
    ((m.unsubscribe_user uid).2.subscribe_user uid e2 ts).2.get_subscription uid
      = some ⟨uid, e2, ts, true⟩ ∧
    ((m.unsubscribe_user uid).2.subscribe_user uid e2 ts).2.countFor uid = 1 := by
  obtain ⟨p0, hfind, hp1, hp2⟩ := get_subscription_exists_entry m uid old hget
  have hgNew : ∀ p : Nat × Subscription, p.1 = uid →
      ((fun _ : Nat × Subscription => ((uid, (⟨uid, e2, ts, true⟩ : Subscription)))) p).1 = uid := by
    intro p _; rfl
  have hgOff : ∀ p : Nat × Subscription, p.1 = uid →
      ((fun p : Nat × Subscription => (p.1, { p.2 with is_active := false })) p).1 = uid := by
    intro p hp; simpa using hp
  have hsub1 : m.subscribe_user uid e2 ts
      = (true, ⟨m.subs.map (fun p =>
          if p.1 == uid then (uid, ⟨uid, e2, ts, true⟩) else p)⟩) := by
    simp [SubscriptionManager.subscribe_user, hget]
  have hget1 : (m.subscribe_user uid e2 ts).2.get_subscription uid
      = some ⟨uid, e2, ts, true⟩ := by
    rw [hsub1]
    simp only [SubscriptionManager.get_subscription]
    rw [assoc_find?_map_update m.subs uid _ hgNew, hfind]
    rfl
  have hcount1 : (m.subscribe_user uid e2 ts).2.countFor uid = 1 := by
    rw [hsub1]
    simp only [SubscriptionManager.countFor]
    rw [assoc_filter_length_map_update m.subs uid _ hgNew]
    exact hcount
  have hunsub : (m.unsubscribe_user uid).2
      = ⟨m.subs.map (fun p =>
          if p.1 == uid then (p.1, { p.2 with is_active := false }) else p)⟩ := by
    simp [SubscriptionManager.unsubscribe_user, hget, hactive]
  have hget2 : (m.unsubscribe_user uid).2.get_subscription uid
      = some { old with is_active := false } := by
    rw [hunsub]
    simp only [SubscriptionManager.get_subscription]
    rw [assoc_find?_map_update m.subs uid _ hgOff, hfind]
    simp [hp2]
  have hsub2 : (m.unsubscribe_user uid).2.subscribe_user uid e2 ts
      = (true, ⟨(m.unsubscribe_user uid).2.subs.map (fun p =>
          if p.1 == uid then (uid, ⟨uid, e2, ts, true⟩) else p)⟩) := by
    simp [SubscriptionManager.subscribe_user, hget2]
  obtain ⟨q0, hfind2, hq1, hq2⟩ :=
    get_subscription_exists_entry (m.unsubscribe_user uid).2 uid
      { old with is_active := false } hget2
  have hget3 : ((m.unsubscribe_user uid).2.subscribe_user uid e2 ts).2.get_subscription uid
      = some ⟨uid, e2, ts, true⟩ := by
    rw [hsub2]
    simp only [SubscriptionManager.get_subscription]
    rw [assoc_find?_map_update (m.unsubscribe_user uid).2.subs uid _ hgNew, hfind2]
    rfl
  have hcount2 : (m.unsubscribe_user uid).2.countFor uid = 1 := by
    rw [hunsub]
    simp only [SubscriptionManager.countFor]
    rw [assoc_filter_length_map_update m.subs uid _ hgOff]
    exact hcount
  have hcount3 : ((m.unsubscribe_user uid).2.subscribe_user uid e2 ts).2.countFor uid = 1 := by
    rw [hsub2]
    simp only [SubscriptionManager.countFor]
    rw [assoc_filter_length_map_update (m.unsubscribe_user uid).2.subs uid _ hgNew]
    exact hcount2
  exact ⟨by rw [hsub1], hget1, hcount1, hget3, hcount3⟩

/-- Concrete instantiation of
`subscribe_updates_in_place_and_resubscribe_reactivates`: user 5 is
actively subscribed with `old@example.com` and resubscribes with
`new@example.com`. -/
theorem subscribe_updates_in_place_and_resubscribe_reactivates_witness :
    (SubscriptionManager.mk [(5, ⟨5, "old@example.com", ["status_change"], true⟩)]).get_subscription 5
      = some ⟨5, "old@example.com", ["status_change"], true⟩ ∧
    ((SubscriptionManager.mk [(5, ⟨5, "old@example.com", ["status_change"], true⟩)]).subscribe_user
        5 "new@example.com" ["status_change", "order_ready"]).2.get_subscription 5
      = some ⟨5, "new@example.com", ["status_change", "order_ready"], true⟩ := by
  refine ⟨by decide, ?_⟩
  exact (subscribe_updates_in_place_and_resubscribe_reactivates
    (SubscriptionManager.mk [(5, ⟨5, "old@example.com", ["status_change"], true⟩)]) 5
    ⟨5, "old@example.com", ["status_change"], true⟩
    "new@example.com" ["status_change", "order_ready"]
    (by decide) (by decide) (by decide) (by decide)).2.1

/-- C3: When Confirm is issued with a session at CONFIRMATION and the
upstream submission fails, the session store is left completely unchanged
(so every collected field survives) and a submission-failure outcome is
returned; a second Confirm reattempts and, when the upstream then
succeeds, the outcome is `order_submitted` and the session is cleared.
On direct success the session is likewise submitted and then cleared. -/
theorem confirm_failure_preserves_session_and_retry_works
    (m : SessionManager) (uid : Nat) (s : OrderSession)
    (hget : m.get_session uid = some s)
    (hstep : s.step = OrderStep.CONFIRMATION) :
    confirm_order m uid false = (ConfirmOutcome.submission_failed, m) ∧
    (confirm_order m uid true).1 = ConfirmOutcome.order_submitted ∧
    (confirm_order m uid true).2.get_session uid = none ∧
    (confirm_order (confirm_order m uid false).2 uid true).1 =
      ConfirmOutcome.order_submitted := by
  have hfail : confirm_order m uid false = (ConfirmOutcome.submission_failed, m) := by
    simp [confirm_order, hget, hstep]
  refine ⟨hfail, ?_, ?_, ?_⟩
  · simp [confirm_order, hget, hstep]
  · simp [confirm_order, hget, hstep, get_session_clear]
  · rw [hfail]
    simp [confirm_order, hget, hstep]

/-- Concrete instantiation of `confirm_failure_preserves_session_and_retry_works`:
a one-user store whose session sits at CONFIRMATION with all fields collected. -/
theorem confirm_failure_preserves_session_and_retry_works_witness :
    confirmDemoStore.get_session 7 = some confirmDemoSession ∧
    confirmDemoSession.step = OrderStep.CONFIRMATION ∧
    confirm_order confirmDemoStore 7 false =
      (ConfirmOutcome.submission_failed, confirmDemoStore) := by
  refine ⟨by decide, by decide, ?_⟩
  exact (confirm_failure_preserves_session_and_retry_works
    confirmDemoStore 7 confirmDemoSession (by decide) (by decide)).1

/-- C7: An email input that fails format validation makes both the
subscription and the tracking handler re-prompt and leave every piece of
state unchanged: the per-chat waiting mode is kept, the subscription
store is untouched (nothing created or updated), and the reply is the
re-prompt — in particular no order lookup result is ever surfaced. -/
theorem invalid_email_reprompts_and_preserves_state
    (ud : UserData) (sm : SubscriptionManager) (notifReady : Bool) (uid : Nat)
    (email : String) (apiOrders : Option (List TrackedOrder))
    (hinvalid : validate_email email = false) :
    handle_subscription_email ud sm notifReady uid email
      = (SubscriptionReply.invalid_email_reprompt, ud, sm) ∧
    handle_tracking_email ud email apiOrders
      = (TrackingReply.invalid_email_reprompt, ud) := by
  constructor
  · simp [handle_subscription_email, hinvalid]
  · simp [handle_tracking_email, hinvalid]

/-- Concrete instantiation of `invalid_email_reprompts_and_preserves_state`
on the invalid input `"not-an-email"` with both waiting modes pending. -/
theorem invalid_email_reprompts_and_preserves_state_witness :
    validate_email "not-an-email" = false ∧
    handle_subscription_email ⟨some "waiting_for_email", some "waiting_for_email"⟩ ⟨[]⟩
        true 5 "not-an-email"
      = (SubscriptionReply.invalid_email_reprompt,
          ⟨some "waiting_for_email", some "waiting_for_email"⟩, ⟨[]⟩) ∧
    handle_tracking_email ⟨some "waiting_for_email", some "waiting_for_email"⟩
        "not-an-email" (some [])
      = (TrackingReply.invalid_email_reprompt,
          ⟨some "waiting_for_email", some "waiting_for_email"⟩) := by
  refine ⟨by decide, ?_, ?_⟩
  · exact (invalid_email_reprompts_and_preserves_state
      ⟨some "waiting_for_email", some "waiting_for_email"⟩ ⟨[]⟩ true 5 "not-an-email"
      (some []) (by decide)).1
  · exact (invalid_email_reprompts_and_preserves_state
      ⟨some "waiting_for_email", some "waiting_for_email"⟩ ⟨[]⟩ true 5 "not-an-email"
      (some []) (by decide)).2

/-- C8: While the per-chat state marks tracking or subscription as
waiting for an email, an inbound text is consumed by the corresponding
email handler — never by the order flow's contact or address collection —
and the session store comes back unchanged. -/
theorem waiting_email_mode_consumes_text_and_preserves_session
    (ud : UserData) (store : SessionManager) (sm : SubscriptionManager)
    (handlersReady notifReady : Bool) (uid : Nat) (text : String)
    (apiOrders : Option (List TrackedOrder))
    (hmode : ud.tracking_state = some "waiting_for_email" ∨
      ud.subscription_state = some "waiting_for_email") :
    ((handle_text_message ud store sm handlersReady notifReady uid text apiOrders).1
        = TextRoute.tracking_email ∨
      (handle_text_message ud store sm handlersReady notifReady uid text apiOrders).1
        = TextRoute.subscription_email) ∧
    (handle_text_message ud store sm handlersReady notifReady uid text apiOrders).2.2.1
      = store := by
  by_cases ht : ud.tracking_state = some "waiting_for_email"
  · exact ⟨Or.inl (by simp [handle_text_message, ht]), by simp [handle_text_message, ht]⟩
  · have hs : ud.subscription_state = some "waiting_for_email" := hmode.resolve_left ht
    exact ⟨Or.inr (by simp [handle_text_message, ht, hs]),
      by simp [handle_text_message, ht, hs]⟩

/-- Concrete instantiation of
`waiting_email_mode_consumes_text_and_preserves_session`: tracking mode is
waiting while an order session at CONTACT_INFO exists for the same user. -/
theorem waiting_email_mode_consumes_text_and_preserves_session_witness :
    ((handle_text_message ⟨some "waiting_for_email", none⟩ contactDemoStore ⟨[]⟩
        true true 3 "bob@mail.com" (some [])).1 = TextRoute.tracking_email ∨
      (handle_text_message ⟨some "waiting_for_email", none⟩ contactDemoStore ⟨[]⟩
        true true 3 "bob@mail.com" (some [])).1 = TextRoute.subscription_email) ∧
    (handle_text_message ⟨some "waiting_for_email", none⟩ contactDemoStore ⟨[]⟩
        true true 3 "bob@mail.com" (some [])).2.2.1 = contactDemoStore :=
  waiting_email_mode_consumes_text_and_preserves_session
    ⟨some "waiting_for_email", none⟩ contactDemoStore ⟨[]⟩ true true 3
    "bob@mail.com" (some []) (Or.inl rfl)

/-- C1: With no email-waiting mode pending and an active session at
CONTACT_INFO, an inbound text is routed to the first unset contact field
in the fixed order name → email → phone; the phone is targeted only while
`customer_phone` is `None` (a skipped phone is never re-prompted), and
out-of-order collection is impossible: the email handler requires the
name to be set, the phone handler requires name and email set. -/
theorem contact_info_text_routes_to_first_unset_field
    (ud : UserData) (store : SessionManager) (sm : SubscriptionManager)
    (notifReady : Bool) (uid : Nat) (text : String)
    (apiOrders : Option (List TrackedOrder)) (s : OrderSession)
    (htrack : ud.tracking_state ≠ some "waiting_for_email")
    (hsubm : ud.subscription_state ≠ some "waiting_for_email")
    (hget : store.get_session uid = some s)
    (hstep : s.step = OrderStep.CONTACT_INFO) :
    (pyFalsyStr s.customer_name = true →
      (handle_text_message ud store sm true notifReady uid text apiOrders).1
        = TextRoute.contact_name) ∧
    (pyFalsyStr s.customer_name = false → pyFalsyStr s.customer_email = true →
      (handle_text_message ud store sm true notifReady uid text apiOrders).1
        = TextRoute.contact_email) ∧
    (pyFalsyStr s.customer_name = false → pyFalsyStr s.customer_email = false →
      s.customer_phone = none →
      (handle_text_message ud store sm true notifReady uid text apiOrders).1
        = TextRoute.contact_phone) ∧
    (pyFalsyStr s.customer_name = false → pyFalsyStr s.customer_email = false →
      s.customer_phone ≠ none →
      (handle_text_message ud store sm true notifReady uid text apiOrders).1
        = TextRoute.contact_done) ∧
    ((handle_text_message ud store sm true notifReady uid text apiOrders).1
        = TextRoute.contact_email → pyFalsyStr s.customer_name = false) ∧
    ((handle_text_message ud store sm true notifReady uid text apiOrders).1
        = TextRoute.contact_phone →
      pyFalsyStr s.customer_name = false ∧ pyFalsyStr s.customer_email = false ∧
        s.customer_phone = none) := by
  have hroute : (handle_text_message ud store sm true notifReady uid text apiOrders).1
      = routeSessionText s := by
    simp [handle_text_message, htrack, hsubm, hget]
  rw [hroute]
  by_cases hn : pyFalsyStr s.customer_name = true <;>
    by_cases he : pyFalsyStr s.customer_email = true <;>
    by_cases hp : s.customer_phone = none <;>
    simp [routeSessionText, hstep, hn, he, hp] at *

/-- Concrete instantiation of `contact_info_text_routes_to_first_unset_field`
on a CONTACT_INFO session whose name is collected and email is not: the
text is routed to the email field. -/
theorem contact_info_text_routes_to_first_unset_field_witness :
    (handle_text_message ⟨none, none⟩ contactDemoStore ⟨[]⟩ true true 3
      "bob@mail.com" none).1 = TextRoute.contact_email :=
  (contact_info_text_routes_to_first_unset_field ⟨none, none⟩ contactDemoStore ⟨[]⟩
      true 3 "bob@mail.com" none contactDemoSession
      (by decide) (by decide) (by decide) (by decide)).2.1
    (by decide) (by decide)

/-- Classification of the standalone file reply for a named document of
known size: unsupported format is decided first (on the lower-cased
name), then the 50 MiB ceiling, then acknowledgment. -/
theorem standalone_file_reply_classification (name : String) (sz : Nat)
    (hname : name ≠ "") :
    (standalone_file_reply (some ⟨some name, some sz⟩) = FileOutcome.invalid_format name ↔
      supportedFormatName name = false) ∧
    (standalone_file_reply (some ⟨some name, some sz⟩) = FileOutcome.file_too_large name ↔
      supportedFormatName name = true ∧ 50 * 1024 * 1024 < sz) ∧
    (standalone_file_reply (some ⟨some name, some sz⟩) = FileOutcome.standalone_ack name ↔
      supportedFormatName name = true ∧ sz ≤ 50 * 1024 * 1024) := by
  by_cases hsup : supportedFormatName name = true
  · by_cases hsz : 50 * 1024 * 1024 < sz
    · have hsz2 : ¬ sz ≤ 50 * 1024 * 1024 := by omega
      simp [standalone_file_reply, hname, hsup, hsz, hsz2]
    · have hsz2 : sz ≤ 50 * 1024 * 1024 := by omega
      simp [standalone_file_reply, hname, hsup, hsz, hsz2]
  · simp [standalone_file_reply, hname, hsup]

/-- The standalone branch never produces the order-flow outcome. -/
theorem standalone_file_reply_ne_order_flow (doc : Option TelegramDocument) :
    standalone_file_reply doc ≠ FileOutcome.order_flow := by
  cases doc with
  | none => simp [standalone_file_reply]
  | some f =>
    obtain ⟨fn, fs⟩ := f
    cases fn with
    | none => simp [standalone_file_reply]
    | some name =>
      by_cases hne : name = "" <;>
        by_cases hsup : supportedFormatName name = true <;>
        by_cases hsz : fs.getD 0 > 50 * 1024 * 1024 <;>
        simp [standalone_file_reply, hne, hsup, hsz]

/-- C2: With the order handlers initialised, an inbound document is
handed to the order flow iff the user's active session sits at
FILE_UPLOAD.  In every other (standalone) case the session store comes
back unchanged, and a named document of known size is rejected as an
unsupported format iff its lower-cased name ends in none of `.stl`,
`.obj`, `.3mf`; rejected as too large iff the format is supported but
the size exceeds `50 * 1024 * 1024` bytes; and acknowledged otherwise. -/
theorem file_routed_to_order_flow_iff_file_upload_step
    (store : SessionManager) (uid : Nat) (doc : Option TelegramDocument) :
    ((handle_file store uid true doc).1 = FileOutcome.order_flow ↔
      ∃ s, store.get_session uid = some s ∧ s.step = OrderStep.FILE_UPLOAD) ∧
    ((handle_file store uid true doc).1 ≠ FileOutcome.order_flow →
      (handle_file store uid true doc).2 = store) ∧
    (∀ name sz, doc = some ⟨some name, some sz⟩ → name ≠ "" →
      (handle_file store uid true doc).1 ≠ FileOutcome.order_flow →
      (((handle_file store uid true doc).1 = FileOutcome.invalid_format name ↔
          supportedFormatName name = false) ∧
        ((handle_file store uid true doc).1 = FileOutcome.file_too_large name ↔
          supportedFormatName name = true ∧ 50 * 1024 * 1024 < sz) ∧
        ((handle_file store uid true doc).1 = FileOutcome.standalone_ack name ↔
          supportedFormatName name = true ∧ sz ≤ 50 * 1024 * 1024))) := by
  cases hget : store.get_session uid with
  | none =>
    have hred : handle_file store uid true doc = (standalone_file_reply doc, store) := by
      simp [handle_file, hget]
    refine ⟨?_, ?_, ?_⟩
    · rw [hred]
      constructor
      · intro h
        exact absurd h (standalone_file_reply_ne_order_flow doc)
      · rintro ⟨s, hs, -⟩
        exact Option.noConfusion hs
    · intro _
      rw [hred]
    · intro name sz hdoc hname _
      subst hdoc
      rw [hred]
      exact standalone_file_reply_classification name sz hname
  | some s =>
    by_cases hstep : s.step = OrderStep.FILE_UPLOAD
    · have hred : handle_file store uid true doc
          = (FileOutcome.order_flow, orderFlowFileEffect store uid s doc) := by
        simp [handle_file, hget, hstep]
      refine ⟨?_, ?_, ?_⟩
      · rw [hred]
        exact iff_of_true rfl ⟨s, rfl, hstep⟩
      · intro h
        exact absurd (by rw [hred]) h
      · intro name sz hdoc hname h
        exact absurd (by rw [hred]) h
    · have hred : handle_file store uid true doc = (standalone_file_reply doc, store) := by
        simp [handle_file, hget, hstep]
      refine ⟨?_, ?_, ?_⟩
      · rw [hred]
        constructor
        · intro h
          exact absurd h (standalone_file_reply_ne_order_flow doc)
        · rintro ⟨s', hs', hstep'⟩
          injection hs' with hss
          subst hss
          exact absurd hstep' hstep
      · intro _
        rw [hred]
      · intro name sz hdoc hname _
        subst hdoc
        rw [hred]
        exact standalone_file_reply_classification name sz hname

/-- Concrete instantiation of `file_routed_to_order_flow_iff_file_upload_step`:
for a user whose session sits at CONTACT_INFO (not FILE_UPLOAD), an
oversized `.stl` document is rejected as too large and the store is
unchanged. -/
theorem file_routed_to_order_flow_iff_file_upload_step_witness :
    ((handle_file contactDemoStore 3 true (some ⟨some "Model.STL", some 52428801⟩)).1
      = FileOutcome.file_too_large "Model.STL" ↔
      supportedFormatName "Model.STL" = true ∧ 50 * 1024 * 1024 < 52428801) ∧
    (handle_file contactDemoStore 3 true (some ⟨some "Model.STL", some 52428801⟩)).2
      = contactDemoStore := by
  constructor
  · exact ((file_routed_to_order_flow_iff_file_upload_step contactDemoStore 3
      (some ⟨some "Model.STL", some 52428801⟩)).2.2 "Model.STL" 52428801 rfl
      (by decide) (by decide)).2.1
  · exact (file_routed_to_order_flow_iff_file_upload_step contactDemoStore 3
      (some ⟨some "Model.STL", some 52428801⟩)).2.1 (by decide)

/-- C6 (counterexample to the claim as stated): selecting the absent
service id 2 from a catalog holding only service 1 yields the fixed
"service not found" reply — which is not a rendering of the services
catalog, contradicting the claim that the catalog is re-displayed. -/
theorem invalid_service_selection_no_catalog_redisplay_counterexample :
    (handle_service_selection ⟨[]⟩ [⟨some 1, "FDM print", "plastic"⟩] 2).1
      = ServiceSelectionReply.service_not_found ∧
    displays_catalog
      (handle_service_selection ⟨[]⟩ [⟨some 1, "FDM print", "plastic"⟩] 2).1 = false := by
  constructor
  · rfl
  · rfl

/-- C6 (amended): selecting a service id not present in the fetched
active listing fails as an invalid selection — the user receives the
"service not found, pick another from the catalog" error text, the
catalog is not re-displayed, and no session is mutated. -/
theorem invalid_service_selection_errors_without_mutation
    (store : SessionManager) (services : List Service) (sid : Nat)
    (habsent : services.find? (fun s => s.id == some sid) = none) :
    handle_service_selection store services sid
      = (ServiceSelectionReply.service_not_found, store) ∧
    displays_catalog (handle_service_selection store services sid).1 = false := by
  constructor
  · simp [handle_service_selection, habsent]
  · simp [handle_service_selection, habsent, displays_catalog]

/-- Concrete instantiation of `invalid_service_selection_errors_without_mutation`:
id 7 is absent from the six-service demo catalog; the session store (one
active CONTACT_INFO session) comes back unchanged. -/
theorem invalid_service_selection_errors_without_mutation_witness :
    handle_service_selection contactDemoStore demoServices 7
      = (ServiceSelectionReply.service_not_found, contactDemoStore) ∧
    displays_catalog (handle_service_selection contactDemoStore demoServices 7).1
      = false :=
  invalid_service_selection_errors_without_mutation contactDemoStore demoServices 7
    (by decide)

/-- C9: For every non-empty service list and every page index, the
catalog page shows exactly the slice `services[5*p : min(5*p+5, n)]`
(5 services per page), the previous-page button is present iff `p > 0`,
and the next-page button is present iff `p < ⌈n/5⌉ - 1` (with
`⌈n/5⌉ = (n+4)/5`). -/
theorem services_catalog_pagination
    (services : List Service) (page : Nat) (hne : services ≠ []) :
    ∃ cp, show_services_catalog services page = some cp ∧
      cp.page_services
        = (services.drop (5 * page)).take
            (min (5 * page + 5) services.length - 5 * page) ∧
      (cp.has_prev = true ↔ 0 < page) ∧
      (cp.has_next = true ↔ page < (services.length + 4) / 5 - 1) := by
  have hemp : services.isEmpty = false := by
    cases services with
    | nil => exact absurd rfl hne
    | cons a l => rfl
  have h4 : services.length + 5 - 1 = services.length + 4 := by omega
  refine ⟨⟨(services.drop (page * 5)).take
        (min (page * 5 + 5) services.length - page * 5),
      decide (page > 0), decide (page < (services.length + 5 - 1) / 5 - 1),
      (services.length + 5 - 1) / 5⟩, ?_, ?_, ?_, ?_⟩
  · simp [show_services_catalog, hemp]
  · show ((services.drop (page * 5)).take
        (min (page * 5 + 5) services.length - page * 5)) = _
    rw [Nat.mul_comm page 5]
  · simp
  · simp [h4]

/-- Concrete instantiation of `services_catalog_pagination`: page 1 of
the six-service demo catalog (second and last page). -/
theorem services_catalog_pagination_witness :
    demoServices ≠ [] ∧
    ∃ cp, show_services_catalog demoServices 1 = some cp ∧
      cp.page_services
        = (demoServices.drop (5 * 1)).take
            (min (5 * 1 + 5) demoServices.length - 5 * 1) ∧
      (cp.has_prev = true ↔ 0 < 1) ∧
      (cp.has_next = true ↔ 1 < (demoServices.length + 4) / 5 - 1) :=
  ⟨by decide, services_catalog_pagination demoServices 1 (by decide)⟩

/-- C10: For every non-empty tracking result, the rendered list is the
input orders sorted by `created_at` descending (a sorted permutation of
the input), at most the first 10 of that sorted list carry detail
buttons, and the remainder appears only as a count in the summary line. -/
theorem orders_list_sorted_desc_and_caps_at_ten
    (orders : List TrackedOrder) (hne : orders ≠ []) :
    (show_orders_list orders).shown = (orders.mergeSort ordersDescLe).take 10 ∧
    (orders.mergeSort ordersDescLe).Perm orders ∧
    List.Pairwise (fun a b => b.created_at ≤ a.created_at)
      (orders.mergeSort ordersDescLe) ∧
    List.Pairwise (fun a b => b.created_at ≤ a.created_at)
      (show_orders_list orders).shown ∧
    (show_orders_list orders).shown.length ≤ 10 ∧
    (show_orders_list orders).extra_count
      = (if 10 < orders.length then some (orders.length - 10) else none) := by
  have htrans : ∀ a b c : TrackedOrder,
      ordersDescLe a b → ordersDescLe b c → ordersDescLe a c := by
    intro a b c hab hbc
    simp only [ordersDescLe, decide_eq_true_eq] at *
    exact le_trans hbc hab
  have htotal : ∀ a b : TrackedOrder, ordersDescLe a b || ordersDescLe b a := by
    intro a b
    simp only [ordersDescLe, Bool.or_eq_true, decide_eq_true_eq]
    exact le_total b.created_at a.created_at
  have hsortedB : List.Pairwise (fun a b => ordersDescLe a b = true)
      (orders.mergeSort ordersDescLe) :=
    List.sorted_mergeSort htrans htotal orders
  have hsorted : List.Pairwise (fun a b : TrackedOrder => b.created_at ≤ a.created_at)
      (orders.mergeSort ordersDescLe) := by
    refine hsortedB.imp ?_
    intro a b h
    simpa [ordersDescLe] using h
  refine ⟨rfl, List.mergeSort_perm orders ordersDescLe, hsorted, ?_, ?_, rfl⟩
  · exact hsorted.sublist (List.take_sublist 10 _)
  · show ((orders.mergeSort ordersDescLe).take 10).length ≤ 10
    rw [List.length_take]
    exact Nat.min_le_left 10 _

/-- Concrete instantiation of `orders_list_sorted_desc_and_caps_at_ten`:
eleven orders with shuffled dates; one order overflows into the summary
count. -/
theorem orders_list_sorted_desc_and_caps_at_ten_witness :
    demoOrders ≠ [] ∧
    (show_orders_list demoOrders).extra_count = some 1 ∧
    ((show_orders_list demoOrders).shown
        = (demoOrders.mergeSort ordersDescLe).take 10 ∧
      (demoOrders.mergeSort ordersDescLe).Perm demoOrders ∧
      List.Pairwise (fun a b => b.created_at ≤ a.created_at)
        (demoOrders.mergeSort ordersDescLe) ∧
      List.Pairwise (fun a b => b.created_at ≤ a.created_at)
        (show_orders_list demoOrders).shown ∧
      (show_orders_list demoOrders).shown.length ≤ 10 ∧
      (show_orders_list demoOrders).extra_count
        = (if 10 < demoOrders.length then some (demoOrders.length - 10) else none)) :=
  ⟨by decide, by decide, orders_list_sorted_desc_and_caps_at_ten demoOrders (by decide)⟩

end NordLayer
